import Mathlib

/-!
Shallow embedding of the SupermarketReceipt checkout core
(src/python/shopping_cart.py and src/python/teller.py), together with the
data entities those two modules import from files that are not present
under src (model_objects.py, receipt.py, catalog.py); the latter are
modelled from the spec and marked as such in their doc comments.

Python floats are modelled as exact rationals; Python dicts (insertion
ordered) as association lists updated in place; a Python method that can
raise is modelled either as returning its updated state paired with an
optional error (when mutations before the raise must be visible) or as an
Except value.
-/

/-- Modelled from the spec: model_objects.py is not under src.
Unit kind of a product, EACH or KILO. -/
inductive ProductUnit
  | each
  | kilo
deriving DecidableEq, Repr

/-- Modelled from the spec: model_objects.py is not under src.
A product is an identity value with a name and a unit kind. -/
structure Product where
  name : String
  unit : ProductUnit
deriving DecidableEq, Repr

/-- Modelled from the spec: model_objects.py is not under src.
The four special offer types. -/
inductive SpecialOfferType
  | three_for_two
  | two_for_amount
  | five_for_amount
  | ten_percent_discount
deriving DecidableEq, Repr

/-- Modelled from the spec: model_objects.py is not under src.
An offer: type, target product, numeric argument.  Offers stored in the
registry always carry a numeric argument because Teller.add_special_offer
(in src) rejects a null argument before constructing the Offer. -/
structure Offer where
  offer_type : SpecialOfferType
  product : Product
  argument : Rat
deriving DecidableEq, Repr

/-- Modelled from the spec: model_objects.py is not under src.
A discount: product, human-readable description, (signed) amount. -/
structure Discount where
  product : Product
  description : String
  amount : Rat
deriving DecidableEq, Repr

/-- Modelled from the spec: model_objects.py is not under src.
One (product, quantity) cart entry, appended per add call. -/
structure ProductQuantity where
  product : Product
  quantity : Rat
deriving DecidableEq, Repr

/-- Modelled from the spec: receipt.py is not under src.
A line item of the receipt: product, quantity, unit price, total price. -/
structure ReceiptItem where
  product : Product
  quantity : Rat
  price : Rat
  total_price : Rat
deriving DecidableEq, Repr

/-- Modelled from the spec: receipt.py is not under src.
A receipt: ordered line items plus ordered discounts. -/
structure Receipt where
  items : List ReceiptItem
  discounts : List Discount
deriving DecidableEq, Repr

/-- Modelled from the spec: receipt.py is not under src.
Appends one line item. -/
def Receipt.add_product (r : Receipt) (p : Product) (quantity price total_price : Rat) :
    Receipt :=
  { r with items := r.items ++ [⟨p, quantity, price, total_price⟩] }

/-- Modelled from the spec: receipt.py is not under src.
Appends one discount. -/
def Receipt.add_discount (r : Receipt) (d : Discount) : Receipt :=
  { r with discounts := r.discounts ++ [d] }

/-- Modelled from the spec: receipt.py is not under src.
Total = sum of line item totals plus sum of (negative) discount amounts. -/
def Receipt.total_price (r : Receipt) : Rat :=
  (r.items.map (fun li => li.total_price)).sum + (r.discounts.map (fun d => d.amount)).sum

/-- Errors raised by the embedded code. -/
inductive PyError
  | valueError (msg : String)
  | unknownProduct
deriving DecidableEq, Repr

/-- Lookup in an insertion-ordered association list, modelling Python dict
indexing (and the test x in d, which is (dictGet d x).isSome). -/
def dictGet {α β : Type} [DecidableEq α] : List (α × β) → α → Option β
  | [], _ => none
  | e :: rest, x => if e.1 = x then some e.2 else dictGet rest x

/-- Update in an insertion-ordered association list, modelling Python dict
assignment: an existing key keeps its position, a new key is appended. -/
def dictSet {α β : Type} [DecidableEq α] : List (α × β) → α → β → List (α × β)
  | [], x, v => [(x, v)]
  | e :: rest, x, v => if e.1 = x then (x, v) :: rest else e :: dictSet rest x v

/-- The shopping cart state: the ordered entry list self.items and the
insertion-ordered dict self.product_quantities (shopping_cart.py). -/
structure ShoppingCart where
  items : List ProductQuantity
  product_quantities : List (Product × Rat)
deriving DecidableEq, Repr

/-- A fresh cart (ShoppingCart.init in shopping_cart.py). -/
def ShoppingCart.empty : ShoppingCart := ⟨[], []⟩

/-- ShoppingCart.add_item_quantity (shopping_cart.py).  Raises ValueError on
a non-positive quantity, then on a null product, before any mutation; the
returned cart records the state left by the call, so on an error it is the
unchanged input cart. -/
def ShoppingCart.add_item_quantity (c : ShoppingCart) (product : Option Product)
    (quantity : Rat) : ShoppingCart × Option PyError :=
  if quantity ≤ 0 then
    (c, some (.valueError "Quantity must be positive"))
  else
    match product with
    | none => (c, some (.valueError "please provide a valid product"))
    | some p =>
      (⟨c.items ++ [⟨p, quantity⟩],
        match dictGet c.product_quantities p with
        | some old => dictSet c.product_quantities p (old + quantity)
        | none => dictSet c.product_quantities p quantity⟩, none)

/-- Modelled from the spec: catalog.py / the test fake catalog are not under
src.  A catalog maps a product to its unit price. -/
structure Catalog where
  prices : List (Product × Rat)
deriving DecidableEq, Repr

/-- Modelled from the spec: catalog.py is not under src.  unit_price fails
with the catalog not-found error when the product is absent. -/
def Catalog.unit_price (cat : Catalog) (p : Product) : Except PyError Rat :=
  match dictGet cat.prices p with
  | some up => .ok up
  | none => .error .unknownProduct

/-- Python int() on a (float) quantity: truncation toward zero. -/
def pyInt (q : Rat) : Int :=
  if 0 ≤ q then ⌊q⌋ else ⌈q⌉

/-- ShoppingCart._calculate_percentage_discount (shopping_cart.py): a
percentage discount on quantity * unit_price, applied only when the
percentage is positive; the quantity is used exactly as given (it is the
one offer computation the dispatcher does not floor).  The description
renders the percentage argument followed by percent-off, modelling the
Python string interpolation. -/
def calculate_percentage_discount (product : Product) (quantity unit_price percentage : Rat) :
    Option Discount :=
  if 0 < percentage then
    some ⟨product, toString percentage ++ "% off", -(quantity * unit_price * percentage / 100)⟩
  else
    none

/-- ShoppingCart._calculate_three_for_two_discount (shopping_cart.py):
buy 3 pay 2; applies only when the (already truncated) quantity exceeds 2;
the amount pays back one unit price per full group of three. -/
def calculate_three_for_two_discount (product : Product) (quantity : Int) (unit_price : Rat) :
    Option Discount :=
  if 2 < quantity then
    some ⟨product, "3 for 2", -((quantity.fdiv 3 : Int) * unit_price)⟩
  else
    none

/-- Modelled from the spec: shopping_cart.py dispatches the TWO_FOR_AMOUNT
case to self._calculate_two_for_amount_discount, but no definition of that
method appears under src (only this call site and a test exercise it).
The body follows the spec: the quantity has already been floored by the
dispatcher; the offer applies only when it is at least 2; total_paid prices
each pair at the argument and each remaining unit at the unit price, and
the discount amount is total_paid minus quantity times unit price. -/
def calculate_two_for_amount_discount (product : Product) (quantity : Int)
    (unit_price argument : Rat) : Option Discount :=
  if 2 ≤ quantity then
    some ⟨product, "2 for " ++ toString argument,
      (quantity.fdiv 2 : Int) * argument + (quantity.fmod 2 : Int) * unit_price
        - (quantity : Rat) * unit_price⟩
  else
    none

/-- Modelled from the spec: shopping_cart.py dispatches the FIVE_FOR_AMOUNT
case to self._calculate_five_for_amount_discount, but no definition of that
method appears under src (only this call site exercises it).  The body
follows the spec: the quantity has already been floored by the dispatcher;
the offer applies only when it is at least 5; total_paid prices each group
of five at the argument and each remaining unit at the unit price, and the
discount amount is total_paid minus quantity times unit price. -/
def calculate_five_for_amount_discount (product : Product) (quantity : Int)
    (unit_price argument : Rat) : Option Discount :=
  if 5 ≤ quantity then
    some ⟨product, "5 for " ++ toString argument,
      (quantity.fdiv 5 : Int) * argument + (quantity.fmod 5 : Int) * unit_price
        - (quantity : Rat) * unit_price⟩
  else
    none

/-- ShoppingCart._calculate_discount (shopping_cart.py): looks up the unit
price (which may fail when the product is absent from the catalog),
truncates the quantity with int(), and dispatches on the offer type.  The
unit-count offers receive the truncated quantity; the percentage offer
receives the exact quantity. -/
def calculate_discount (product : Product) (quantity : Rat) (offer : Offer)
    (catalog : Catalog) : Except PyError (Option Discount) :=
  match catalog.unit_price product with
  | .error e => .error e
  | .ok unit_price =>
    let quantity_as_int := pyInt quantity
    match offer.offer_type with
    | .three_for_two =>
      .ok (calculate_three_for_two_discount product quantity_as_int unit_price)
    | .two_for_amount =>
      .ok (calculate_two_for_amount_discount product quantity_as_int unit_price offer.argument)
    | .five_for_amount =>
      .ok (calculate_five_for_amount_discount product quantity_as_int unit_price offer.argument)
    | .ten_percent_discount =>
      .ok (calculate_percentage_discount product quantity unit_price offer.argument)

/-- The loop body of ShoppingCart.handle_offers (shopping_cart.py).  The
discount variable is initialized once, BEFORE the loop, and is reassigned
only when the current product has a registered offer; the trailing
if-discount check then appends whatever the variable currently holds, so a
product without an offer re-appends the previous product's discount. -/
def handleOffersLoop (catalog : Catalog) (offers : List (Product × Offer)) :
    List (Product × Rat) → Option Discount → Receipt → Except PyError Receipt
  | [], _, receipt => .ok receipt
  | (product, quantity) :: rest, discount, receipt =>
    match
      (match dictGet offers product with
       | some offer => calculate_discount product quantity offer catalog
       | none => .ok discount) with
    | .error e => .error e
    | .ok discount' =>
      handleOffersLoop catalog offers rest discount'
        (match discount' with
         | some d => receipt.add_discount d
         | none => receipt)

/-- ShoppingCart.handle_offers (shopping_cart.py): iterates the cart's
product_quantities dict in insertion (first-seen) order.  The method
mutates only the receipt; the cart component of the result records the
cart exactly as the method leaves it. -/
def ShoppingCart.handle_offers (c : ShoppingCart) (receipt : Receipt)
    (offers : List (Product × Offer)) (catalog : Catalog) :
    ShoppingCart × Except PyError Receipt :=
  (c, handleOffersLoop catalog offers c.product_quantities none receipt)

/-- The line-item loop of Teller.checks_out_articles_from (teller.py): one
line item is appended per cart entry, in entry order, pricing each entry at
the catalog unit price; a product absent from the catalog aborts. -/
def addLineItems (catalog : Catalog) :
    List ProductQuantity → Receipt → Except PyError Receipt
  | [], receipt => .ok receipt
  | pq :: rest, receipt =>
    match catalog.unit_price pq.product with
    | .error e => .error e
    | .ok unit_price =>
      addLineItems catalog rest
        (receipt.add_product pq.product pq.quantity unit_price (pq.quantity * unit_price))

/-- The teller: a catalog plus the offers dict keyed by product (teller.py). -/
structure Teller where
  catalog : Catalog
  offers : List (Product × Offer)
deriving DecidableEq, Repr

/-- Teller.add_special_offer (teller.py): raises ValueError when the product
or the argument is None, otherwise stores Offer(offer_type, product,
argument) under the product key, overwriting any prior offer for it.  The
returned teller records the state left by the call. -/
def Teller.add_special_offer (t : Teller) (offer_type : SpecialOfferType)
    (product : Option Product) (argument : Option Rat) : Teller × Option PyError :=
  match product with
  | none => (t, some (.valueError "product cannot be None"))
  | some p =>
    match argument with
    | none => (t, some (.valueError "offer argument cannot be None"))
    | some a =>
      ({ t with offers := dictSet t.offers p ⟨offer_type, p, a⟩ }, none)

/-- Teller.checks_out_articles_from (teller.py): builds a fresh receipt,
appends one line item per cart entry, then lets the cart handle the offers.
The cart component of the result records the cart as the call leaves it. -/
def Teller.checks_out_articles_from (t : Teller) (the_cart : ShoppingCart) :
    ShoppingCart × Except PyError Receipt :=
  match addLineItems t.catalog the_cart.items ⟨[], []⟩ with
  | .error e => (the_cart, .error e)
  | .ok receipt => the_cart.handle_offers receipt t.offers t.catalog

/-- A sequence of add_special_offer calls folded over a teller; each
element is the (offer_type, product, argument) of one valid registration. -/
def applyOffers : Teller → List (SpecialOfferType × Product × Rat) → Teller
  | t, [] => t
  | t, (ty, p, a) :: rest => applyOffers (t.add_special_offer ty (some p) (some a)).1 rest

/-- The offer the most recent registration in the list would install for a
given product: later registrations take precedence. -/
def lastOfferFor : List (SpecialOfferType × Product × Rat) → Product → Option Offer
  | [], _ => none
  | (ty, x, a) :: rest, p =>
    match lastOfferFor rest p with
    | some o => some o
    | none => if x = p then some ⟨ty, x, a⟩ else none

/-- A sequence of add_item_quantity calls folded over a cart; each element
is the (product, quantity) of one add. -/
def buildCart : ShoppingCart → List (Product × Rat) → ShoppingCart
  | c, [] => c
  | c, (p, q) :: rest => buildCart (c.add_item_quantity (some p) q).1 rest

/-- Sum of the quantities of all cart entries for one product. -/
def entrySum (items : List ProductQuantity) (p : Product) : Rat :=
  ((items.filter (fun e => decide (e.product = p))).map (fun e => e.quantity)).sum

/-- Concrete fixture product (EACH unit kind). -/
def toothbrush : Product := ⟨"toothbrush", .each⟩

/-- Concrete fixture product (KILO unit kind, fractional quantities). -/
def apples : Product := ⟨"apples", .kilo⟩

theorem pyInt_of_nonneg {q : Rat} (h : 0 ≤ q) : pyInt q = ⌊q⌋ := by
  simp [pyInt, h]

theorem dictGet_dictSet_self {α β : Type} [DecidableEq α] (d : List (α × β)) (x : α) (v : β) :
    dictGet (dictSet d x v) x = some v := by
  induction d with
  | nil => simp [dictGet, dictSet]
  | cons e rest ih =>
    by_cases h : e.1 = x
    · simp [dictSet, h, dictGet]
    · simp [dictSet, h, dictGet, ih]

theorem dictGet_dictSet_ne {α β : Type} [DecidableEq α] (d : List (α × β)) (x y : α) (v : β)
    (h : y ≠ x) : dictGet (dictSet d x v) y = dictGet d y := by
  induction d with
  | nil => simp [dictGet, dictSet, Ne.symm h]
  | cons e rest ih =>
    by_cases he : e.1 = x
    · simp [dictSet, dictGet, he, Ne.symm h]
    · simp [dictSet, dictGet, he, ih]

theorem keys_dictSet {α β : Type} [DecidableEq α] (d : List (α × β)) (x : α) (v : β) :
    (dictSet d x v).map Prod.fst =
      if x ∈ d.map Prod.fst then d.map Prod.fst else d.map Prod.fst ++ [x] := by
  induction d with
  | nil => simp [dictSet]
  | cons e rest ih =>
    by_cases he : e.1 = x
    · simp [dictSet, he]
    · have hx : ¬x = e.1 := fun hc => he hc.symm
      simp only [dictSet, if_neg he, List.map_cons, List.mem_cons, hx, false_or]
      rw [ih]
      by_cases hmem : x ∈ rest.map Prod.fst <;> simp [hmem]

theorem nodup_keys_dictSet {α β : Type} [DecidableEq α] (d : List (α × β)) (x : α) (v : β)
    (h : (d.map Prod.fst).Nodup) : ((dictSet d x v).map Prod.fst).Nodup := by
  rw [keys_dictSet]
  by_cases hx : x ∈ d.map Prod.fst
  · simpa [hx] using h
  · simp [hx, List.nodup_append, h]

/-- C10: checkout does not modify the cart: the cart state recorded after
Teller.checks_out_articles_from (including ShoppingCart.handle_offers) is
identical to the input cart, for every teller and cart. -/
theorem checkout_preserves_cart (t : Teller) (c : ShoppingCart) :
    (t.checks_out_articles_from c).1 = c := by
  unfold Teller.checks_out_articles_from
  cases addLineItems t.catalog c.items ⟨[], []⟩ <;> simp [ShoppingCart.handle_offers]

/-- C6: ShoppingCart.add_item_quantity with a non-positive quantity (zero or
negative, integer or fractional) fails with the InvalidQuantity ValueError
and leaves the cart (entry list and aggregated-quantity mapping) unchanged:
the returned state is exactly the input cart. -/
theorem add_item_quantity_nonpositive (c : ShoppingCart) (product : Option Product)
    (q : Rat) (hq : q ≤ 0) :
    c.add_item_quantity product q = (c, some (.valueError "Quantity must be positive")) := by
  simp [ShoppingCart.add_item_quantity, hq]

theorem add_item_quantity_nonpositive_witness :
    ((-1 : Rat) ≤ 0) ∧
      ShoppingCart.empty.add_item_quantity (some toothbrush) (-1)
        = (ShoppingCart.empty, some (.valueError "Quantity must be positive")) :=
  ⟨by norm_num, add_item_quantity_nonpositive ShoppingCart.empty (some toothbrush) (-1) (by norm_num)⟩

/-- C3 counterexample: registering a TWO_FOR_AMOUNT offer with a null
argument is an error, not a silent no-op: Teller.add_special_offer raises
ValueError at the registration call (the checkout is never reached with
such an offer installed). -/
theorem add_special_offer_none_argument_raises :
    Teller.add_special_offer ⟨⟨[(toothbrush, 10)]⟩, []⟩ .two_for_amount (some toothbrush) none
      = (⟨⟨[(toothbrush, 10)]⟩, []⟩, some (.valueError "offer argument cannot be None")) := rfl

/-- C3 amended: registering an amount-based offer (indeed any offer) whose
numeric argument is null fails immediately with ValueError at
Teller.add_special_offer, and the offer registry is left unchanged, so a
checkout never sees a null-argument offer and produces no Discount from
one. -/
theorem add_special_offer_none_argument_rejected (t : Teller) (ty : SpecialOfferType)
    (p : Product) :
    t.add_special_offer ty (some p) none
      = (t, some (.valueError "offer argument cannot be None")) := rfl

/-- C1: evaluation of the handle_offers stale-discount slip at a concrete
input.  A cart holding 3 toothbrushes (THREE_FOR_TWO offer registered,
unit price 1) and then 1 apples (no offer, unit price 2) checks out with
the toothbrush discount appended TWICE: the loop variable is initialized
before the loop and is not reset for a product without an offer, so the
receipt carries two Discounts for the same product, contradicting the
at-most-one-Discount-per-product rule. -/
theorem handle_offers_duplicates_stale_discount :
    (Teller.checks_out_articles_from
        ⟨⟨[(toothbrush, 1), (apples, 2)]⟩, [(toothbrush, ⟨.three_for_two, toothbrush, 10⟩)]⟩
        ⟨[⟨toothbrush, 3⟩, ⟨apples, 1⟩], [(toothbrush, 3), (apples, 1)]⟩).2 =
      .ok ⟨[⟨toothbrush, 3, 1, 3⟩, ⟨apples, 1, 2, 2⟩],
           [⟨toothbrush, "3 for 2", -1⟩, ⟨toothbrush, "3 for 2", -1⟩]⟩ := by
  have hfd : Int.fdiv 3 3 = 1 := by decide
  have hne : toothbrush ≠ apples := by decide
  norm_num [Teller.checks_out_articles_from, addLineItems, Catalog.unit_price, dictGet,
    Receipt.add_product, ShoppingCart.handle_offers, handleOffersLoop, calculate_discount,
    pyInt, calculate_three_for_two_discount, Receipt.add_discount, hne, Ne.symm hne, hfd]

/-- C4: for a product whose registered offer is THREE_FOR_TWO, checking out
a cart whose aggregated quantity for it is q produces exactly one Discount
with description 3 for 2 and amount minus (floor q / 3) times the unit
price when floor q exceeds 2, and no Discount otherwise; the offer
argument is ignored. -/
theorem three_for_two_checkout (p : Product) (q up a : Rat) (hq : 0 < q) :
    (Teller.checks_out_articles_from
        ⟨⟨[(p, up)]⟩, [(p, ⟨.three_for_two, p, a⟩)]⟩
        ⟨[⟨p, q⟩], [(p, q)]⟩).2 =
      .ok ⟨[⟨p, q, up, q * up⟩],
           if 2 < ⌊q⌋ then [⟨p, "3 for 2", -((⌊q⌋.fdiv 3 : Int) * up)⟩] else []⟩ := by
  by_cases h : 2 < ⌊q⌋ <;>
    simp [Teller.checks_out_articles_from, addLineItems, Catalog.unit_price, dictGet,
      Receipt.add_product, ShoppingCart.handle_offers, handleOffersLoop, calculate_discount,
      pyInt_of_nonneg hq.le, calculate_three_for_two_discount, Receipt.add_discount, h]

theorem three_for_two_checkout_witness :
    (0 < (3 : Rat)) ∧
      (Teller.checks_out_articles_from
          ⟨⟨[(toothbrush, 1)]⟩, [(toothbrush, ⟨.three_for_two, toothbrush, 10⟩)]⟩
          ⟨[⟨toothbrush, 3⟩], [(toothbrush, 3)]⟩).2 =
        .ok ⟨[⟨toothbrush, 3, 1, 3 * 1⟩],
             if 2 < ⌊(3 : Rat)⌋ then
               [⟨toothbrush, "3 for 2", -((⌊(3 : Rat)⌋.fdiv 3 : Int) * 1)⟩]
             else []⟩ :=
  ⟨by norm_num, three_for_two_checkout toothbrush 3 1 10 (by norm_num)⟩

/-- C2 counterexample: with a TWO_FOR_AMOUNT offer (argument 1, unit price
1) and aggregated quantity 5/2, the checkout produces a Discount of amount
-1 = total_paid - floor(5/2) * unit_price, because the dispatcher floors
the quantity before the amount formula; the claim's formula
total_paid - q * unit_price at the exact q = 5/2 would give -3/2, which is
not the produced amount. -/
theorem two_for_amount_fractional_counterexample :
    ((Teller.checks_out_articles_from
        ⟨⟨[(apples, 1)]⟩, [(apples, ⟨.two_for_amount, apples, 1⟩)]⟩
        ⟨[⟨apples, 5/2⟩], [(apples, 5/2)]⟩).2 =
      .ok ⟨[⟨apples, 5/2, 1, 5/2 * 1⟩],
           [⟨apples, "2 for " ++ toString (1 : Rat), -1⟩]⟩) ∧
    (-1 : Rat) ≠ 1 * 1 + 0 * 1 - 5/2 * 1 := by
  constructor
  · have hfl : ⌊(5/2 : Rat)⌋ = 2 := by norm_num
    have hfd : Int.fdiv 2 2 = 1 := by decide
    have hfm : Int.fmod 2 2 = 0 := by decide
    norm_num [Teller.checks_out_articles_from, addLineItems, Catalog.unit_price, dictGet,
      Receipt.add_product, ShoppingCart.handle_offers, handleOffersLoop, calculate_discount,
      pyInt, calculate_two_for_amount_discount, Receipt.add_discount, hfl, hfd, hfm]
  · norm_num

/-- C2 amended: for a product whose registered offer is TWO_FOR_AMOUNT
with argument A (resp. FIVE_FOR_AMOUNT), checkout with aggregated quantity
q such that floor q is at least 2 (resp. 5) produces a Discount whose
amount is total_paid - floor q * unit_price, where total_paid prices each
complete pair (resp. group of five) at A and the remaining floor q mod 2
(resp. mod 5) units at the unit price; below the threshold no Discount is
produced.  (The quantity is floored by the dispatcher before the amount
formula, so the exact q of the claim is replaced by floor q.) -/
theorem two_five_for_amount_checkout (p : Product) (q up a : Rat) (hq : 0 < q) :
    ((Teller.checks_out_articles_from
        ⟨⟨[(p, up)]⟩, [(p, ⟨.two_for_amount, p, a⟩)]⟩
        ⟨[⟨p, q⟩], [(p, q)]⟩).2 =
      .ok ⟨[⟨p, q, up, q * up⟩],
           if 2 ≤ ⌊q⌋ then
             [⟨p, "2 for " ++ toString a,
               (⌊q⌋.fdiv 2 : Int) * a + (⌊q⌋.fmod 2 : Int) * up - (⌊q⌋ : Int) * up⟩]
           else []⟩) ∧
    ((Teller.checks_out_articles_from
        ⟨⟨[(p, up)]⟩, [(p, ⟨.five_for_amount, p, a⟩)]⟩
        ⟨[⟨p, q⟩], [(p, q)]⟩).2 =
      .ok ⟨[⟨p, q, up, q * up⟩],
           if 5 ≤ ⌊q⌋ then
             [⟨p, "5 for " ++ toString a,
               (⌊q⌋.fdiv 5 : Int) * a + (⌊q⌋.fmod 5 : Int) * up - (⌊q⌋ : Int) * up⟩]
           else []⟩) := by
  constructor
  · by_cases h : 2 ≤ ⌊q⌋ <;>
      simp [Teller.checks_out_articles_from, addLineItems, Catalog.unit_price, dictGet,
        Receipt.add_product, ShoppingCart.handle_offers, handleOffersLoop, calculate_discount,
        pyInt_of_nonneg hq.le, calculate_two_for_amount_discount, Receipt.add_discount, h]
  · by_cases h : 5 ≤ ⌊q⌋ <;>
      simp [Teller.checks_out_articles_from, addLineItems, Catalog.unit_price, dictGet,
        Receipt.add_product, ShoppingCart.handle_offers, handleOffersLoop, calculate_discount,
        pyInt_of_nonneg hq.le, calculate_five_for_amount_discount, Receipt.add_discount, h]

theorem two_five_for_amount_checkout_witness :
    (0 < (3 : Rat)) ∧
      (((Teller.checks_out_articles_from
          ⟨⟨[(toothbrush, 2)]⟩, [(toothbrush, ⟨.two_for_amount, toothbrush, 1⟩)]⟩
          ⟨[⟨toothbrush, 3⟩], [(toothbrush, 3)]⟩).2 =
        .ok ⟨[⟨toothbrush, 3, 2, 3 * 2⟩],
             if 2 ≤ ⌊(3 : Rat)⌋ then
               [⟨toothbrush, "2 for " ++ toString (1 : Rat),
                 (⌊(3 : Rat)⌋.fdiv 2 : Int) * 1 + (⌊(3 : Rat)⌋.fmod 2 : Int) * 2
                   - (⌊(3 : Rat)⌋ : Int) * 2⟩]
             else []⟩) ∧
      ((Teller.checks_out_articles_from
          ⟨⟨[(toothbrush, 2)]⟩, [(toothbrush, ⟨.five_for_amount, toothbrush, 1⟩)]⟩
          ⟨[⟨toothbrush, 3⟩], [(toothbrush, 3)]⟩).2 =
        .ok ⟨[⟨toothbrush, 3, 2, 3 * 2⟩],
             if 5 ≤ ⌊(3 : Rat)⌋ then
               [⟨toothbrush, "5 for " ++ toString (1 : Rat),
                 (⌊(3 : Rat)⌋.fdiv 5 : Int) * 1 + (⌊(3 : Rat)⌋.fmod 5 : Int) * 2
                   - (⌊(3 : Rat)⌋ : Int) * 2⟩]
             else []⟩)) :=
  ⟨by norm_num, two_five_for_amount_checkout toothbrush 3 2 1 (by norm_num)⟩

/-- C5: for a product whose registered offer is TEN_PERCENT_DISCOUNT with
argument a, checkout produces a Discount exactly when a is positive, with
amount minus (q * unit_price * a / 100) computed from the exact, unfloored
aggregated quantity q; and the three unit-count offer types compute the
same discount at q as at floor q, i.e. they floor the quantity before
their formulas apply. -/
theorem percentage_exact_quantity_unit_count_floored (p : Product) (q up a : Rat)
    (hq : 0 < q) :
    ((Teller.checks_out_articles_from
        ⟨⟨[(p, up)]⟩, [(p, ⟨.ten_percent_discount, p, a⟩)]⟩
        ⟨[⟨p, q⟩], [(p, q)]⟩).2 =
      .ok ⟨[⟨p, q, up, q * up⟩],
           if 0 < a then [⟨p, toString a ++ "% off", -(q * up * a / 100)⟩] else []⟩) ∧
    (∀ ty : SpecialOfferType, ty ≠ .ten_percent_discount → ∀ arg : Rat, ∀ cat : Catalog,
      calculate_discount p q ⟨ty, p, arg⟩ cat
        = calculate_discount p ((⌊q⌋ : Int) : Rat) ⟨ty, p, arg⟩ cat) := by
  constructor
  · by_cases h : 0 < a <;>
      simp [Teller.checks_out_articles_from, addLineItems, Catalog.unit_price, dictGet,
        Receipt.add_product, ShoppingCart.handle_offers, handleOffersLoop, calculate_discount,
        calculate_percentage_discount, Receipt.add_discount, h]
  · intro ty hty arg cat
    have h1 : pyInt ((⌊q⌋ : Int) : Rat) = ⌊q⌋ := by
      rw [pyInt_of_nonneg (by exact_mod_cast Int.floor_nonneg.mpr hq.le)]
      exact Int.floor_intCast _
    have h2 : pyInt q = ⌊q⌋ := pyInt_of_nonneg hq.le
    unfold calculate_discount
    cases hcup : cat.unit_price p with
    | error e => simp
    | ok up2 =>
      cases ty with
      | three_for_two => simp [h1, h2]
      | two_for_amount => simp [h1, h2]
      | five_for_amount => simp [h1, h2]
      | ten_percent_discount => exact absurd rfl hty

theorem percentage_exact_quantity_unit_count_floored_witness :
    (0 < (5/2 : Rat)) ∧
      (((Teller.checks_out_articles_from
          ⟨⟨[(apples, 2)]⟩, [(apples, ⟨.ten_percent_discount, apples, 10⟩)]⟩
          ⟨[⟨apples, 5/2⟩], [(apples, 5/2)]⟩).2 =
        .ok ⟨[⟨apples, 5/2, 2, 5/2 * 2⟩],
             if 0 < (10 : Rat) then
               [⟨apples, toString (10 : Rat) ++ "% off", -(5/2 * 2 * 10 / 100)⟩]
             else []⟩) ∧
      (∀ ty : SpecialOfferType, ty ≠ .ten_percent_discount → ∀ arg : Rat, ∀ cat : Catalog,
        calculate_discount apples (5/2) ⟨ty, apples, arg⟩ cat
          = calculate_discount apples ((⌊(5/2 : Rat)⌋ : Int) : Rat) ⟨ty, apples, arg⟩ cat)) :=
  ⟨by norm_num, percentage_exact_quantity_unit_count_floored apples (5/2) 2 10 (by norm_num)⟩

theorem addLineItems_error_of_missing (cat : Catalog) (items : List ProductQuantity)
    (r0 : Receipt) (h : ∃ pq ∈ items, cat.unit_price pq.product = .error .unknownProduct) :
    addLineItems cat items r0 = .error .unknownProduct := by
  induction items generalizing r0 with
  | nil => simp at h
  | cons e rest ih =>
    rcases h with ⟨pq, hmem, herr⟩
    rcases List.mem_cons.mp hmem with rfl | hmem2
    · simp [addLineItems, herr]
    · cases hcup : cat.unit_price e.product with
      | error err =>
        have herr2 : err = .unknownProduct := by
          unfold Catalog.unit_price at hcup
          cases hdg : dictGet cat.prices e.product <;> rw [hdg] at hcup <;> simp_all
        subst herr2
        simp [addLineItems, hcup]
      | ok up =>
        simp only [addLineItems, hcup]
        exact ih _ ⟨pq, hmem2, herr⟩

/-- C7: if any cart entry's product is absent from the catalog (its
unit_price lookup fails), the whole checkout fails with the UnknownProduct
error and no Receipt, not even a partial one, is returned. -/
theorem checkout_unknown_product (t : Teller) (c : ShoppingCart)
    (h : ∃ pq ∈ c.items, t.catalog.unit_price pq.product = .error .unknownProduct) :
    (t.checks_out_articles_from c).2 = .error .unknownProduct := by
  unfold Teller.checks_out_articles_from
  rw [addLineItems_error_of_missing t.catalog c.items ⟨[], []⟩ h]

theorem checkout_unknown_product_witness :
    (∃ pq ∈ ([⟨toothbrush, 1⟩] : List ProductQuantity),
        Catalog.unit_price ⟨[]⟩ pq.product = .error .unknownProduct) ∧
      (Teller.checks_out_articles_from ⟨⟨[]⟩, []⟩ ⟨[⟨toothbrush, 1⟩], [(toothbrush, 1)]⟩).2
        = .error .unknownProduct :=
  ⟨⟨⟨toothbrush, 1⟩, by simp, rfl⟩,
   checkout_unknown_product ⟨⟨[]⟩, []⟩ ⟨[⟨toothbrush, 1⟩], [(toothbrush, 1)]⟩
     ⟨⟨toothbrush, 1⟩, by simp, rfl⟩⟩

theorem applyOffers_dictGet (regs : List (SpecialOfferType × Product × Rat)) (t : Teller)
    (p : Product) :
    dictGet (applyOffers t regs).offers p =
      match lastOfferFor regs p with
      | some o => some o
      | none => dictGet t.offers p := by
  induction regs generalizing t with
  | nil => simp [applyOffers, lastOfferFor]
  | cons r rest ih =>
    obtain ⟨ty, x, a⟩ := r
    rw [show applyOffers t ((ty, x, a) :: rest)
          = applyOffers (t.add_special_offer ty (some x) (some a)).1 rest from rfl]
    rw [ih]
    cases hl : lastOfferFor rest p with
    | some o => simp [lastOfferFor, hl]
    | none =>
      simp only [lastOfferFor, hl]
      by_cases hx : x = p
      · subst hx
        simp [Teller.add_special_offer, dictGet_dictSet_self]
      · simp [Teller.add_special_offer, hx,
          dictGet_dictSet_ne _ _ _ _ (fun hc => hx hc.symm)]

theorem applyOffers_nodup (regs : List (SpecialOfferType × Product × Rat)) (t : Teller)
    (h : (t.offers.map Prod.fst).Nodup) :
    ((applyOffers t regs).offers.map Prod.fst).Nodup := by
  induction regs generalizing t with
  | nil => simpa [applyOffers] using h
  | cons r rest ih =>
    obtain ⟨ty, x, a⟩ := r
    exact ih _ (nodup_keys_dictSet _ _ _ h)

/-- C8: after any sequence of valid add_special_offer registrations on a
fresh teller, the registry holds at most one offer per product (its keys
are pairwise distinct) and the lookup made by handle_offers yields, for
each product, exactly the most recently registered offer for it (a later
registration silently overwrites the earlier one, never merging). -/
theorem offer_registry_last_wins (cat : Catalog)
    (regs : List (SpecialOfferType × Product × Rat)) (p : Product) :
    dictGet (applyOffers ⟨cat, []⟩ regs).offers p = lastOfferFor regs p ∧
      ((applyOffers ⟨cat, []⟩ regs).offers.map Prod.fst).Nodup := by
  constructor
  · rw [applyOffers_dictGet]
    cases hl : lastOfferFor regs p <;> simp [dictGet]
  · exact applyOffers_nodup regs ⟨cat, []⟩ (by simp)

theorem entrySum_append (items : List ProductQuantity) (e : ProductQuantity) (p : Product) :
    entrySum (items ++ [e]) p
      = entrySum items p + (if e.product = p then e.quantity else 0) := by
  by_cases h : e.product = p <;> simp [entrySum, List.filter_append, h]

theorem add_item_quantity_agg (c : ShoppingCart) (product : Option Product) (q : Rat)
    (p : Product)
    (h : (dictGet c.product_quantities p).getD 0 = entrySum c.items p) :
    (dictGet ((c.add_item_quantity product q).1).product_quantities p).getD 0
      = entrySum ((c.add_item_quantity product q).1).items p := by
  unfold ShoppingCart.add_item_quantity
  by_cases hq : q ≤ 0
  · simpa [hq] using h
  · cases product with
    | none => simpa [hq] using h
    | some x =>
      by_cases hx : x = p
      · subst hx
        cases hdg : dictGet c.product_quantities x with
        | some old =>
          rw [hdg] at h
          simp only [Option.getD_some] at h
          simp [hq, hdg, dictGet_dictSet_self, entrySum_append, h]
        | none =>
          rw [hdg] at h
          simp only [Option.getD_none] at h
          simp [hq, hdg, dictGet_dictSet_self, entrySum_append, ← h]
      · cases hdg : dictGet c.product_quantities x with
        | some old =>
          simp [hq, hdg, dictGet_dictSet_ne _ _ _ _ (fun hc => hx hc.symm),
            entrySum_append, hx, h]
        | none =>
          simp [hq, hdg, dictGet_dictSet_ne _ _ _ _ (fun hc => hx hc.symm),
            entrySum_append, hx, h]

theorem buildCart_agg (adds : List (Product × Rat)) (c : ShoppingCart)
    (h : ∀ p, (dictGet c.product_quantities p).getD 0 = entrySum c.items p) (p : Product) :
    (dictGet (buildCart c adds).product_quantities p).getD 0
      = entrySum (buildCart c adds).items p := by
  induction adds generalizing c with
  | nil => simpa [buildCart] using h p
  | cons a rest ih =>
    obtain ⟨x, q⟩ := a
    exact ih _ (fun p2 => add_item_quantity_agg c (some x) q p2 (h p2))

theorem addLineItems_ok_items (cat : Catalog) (items : List ProductQuantity)
    (r0 r : Receipt) (h : addLineItems cat items r0 = .ok r) :
    r.items.map (fun li => (li.product, li.quantity))
      = r0.items.map (fun li => (li.product, li.quantity))
        ++ items.map (fun e => (e.product, e.quantity)) := by
  induction items generalizing r0 with
  | nil =>
    simp only [addLineItems] at h
    injection h with h
    subst h
    simp
  | cons e rest ih =>
    simp only [addLineItems] at h
    cases hcup : cat.unit_price e.product with
    | error err => rw [hcup] at h; cases h
    | ok up =>
      rw [hcup] at h
      rw [ih _ h]
      simp [Receipt.add_product]

theorem handleOffersLoop_ok_items (cat : Catalog) (offers : List (Product × Offer))
    (l : List (Product × Rat)) (disc : Option Discount) (r r' : Receipt)
    (h : handleOffersLoop cat offers l disc r = .ok r') : r'.items = r.items := by
  induction l generalizing disc r with
  | nil =>
    simp only [handleOffersLoop] at h
    injection h with h
    rw [← h]
  | cons e rest ih =>
    obtain ⟨p, q⟩ := e
    simp only [handleOffersLoop] at h
    cases hm : (match dictGet offers p with
                | some offer => calculate_discount p q offer cat
                | none => .ok disc) with
    | error err => rw [hm] at h; cases h
    | ok d' =>
      rw [hm] at h
      rw [ih _ _ h]
      cases d' <;> simp [Receipt.add_discount]

/-- C9: for every cart built by a sequence of valid add calls, the
aggregated quantity of each product equals the sum of the quantities of
the cart entries for that product, and a successful checkout produces
exactly one line item per cart entry, in entry order, carrying that
entry's product and quantity (so there are as many line items as entries,
not as distinct products). -/
theorem cart_aggregation_and_line_items (adds : List (Product × Rat)) (t : Teller)
    (r : Receipt) (hvalid : ∀ x ∈ adds, 0 < x.2) :
    (∀ p, (dictGet (buildCart ShoppingCart.empty adds).product_quantities p).getD 0
        = entrySum (buildCart ShoppingCart.empty adds).items p) ∧
      ((t.checks_out_articles_from (buildCart ShoppingCart.empty adds)).2 = .ok r →
        r.items.map (fun li => (li.product, li.quantity))
          = (buildCart ShoppingCart.empty adds).items.map (fun e => (e.product, e.quantity))) := by
  refine ⟨fun p => buildCart_agg adds ShoppingCart.empty
    (fun p2 => by simp [dictGet, entrySum, ShoppingCart.empty]) p, fun h => ?_⟩
  unfold Teller.checks_out_articles_from at h
  cases hal : addLineItems t.catalog (buildCart ShoppingCart.empty adds).items ⟨[], []⟩ with
  | error e => rw [hal] at h; simp at h
  | ok r1 =>
    rw [hal] at h
    simp only [ShoppingCart.handle_offers] at h
    rw [handleOffersLoop_ok_items _ _ _ _ _ _ h]
    rw [addLineItems_ok_items _ _ _ _ hal]
    simp

theorem cart_aggregation_and_line_items_witness :
    (∀ x ∈ [(toothbrush, (2 : Rat)), (toothbrush, 3)], 0 < x.2) ∧
      (∀ p, (dictGet (buildCart ShoppingCart.empty
            [(toothbrush, 2), (toothbrush, 3)]).product_quantities p).getD 0
          = entrySum (buildCart ShoppingCart.empty
            [(toothbrush, 2), (toothbrush, 3)]).items p) ∧
      (⟨[⟨toothbrush, 2, 1, 2 * 1⟩, ⟨toothbrush, 3, 1, 3 * 1⟩], []⟩ : Receipt).items.map
          (fun li => (li.product, li.quantity))
        = (buildCart ShoppingCart.empty [(toothbrush, 2), (toothbrush, 3)]).items.map
          (fun e => (e.product, e.quantity)) := by
  have hvalid : ∀ x ∈ [(toothbrush, (2 : Rat)), (toothbrush, 3)], 0 < x.2 := by
    intro x hx
    rcases List.mem_cons.mp hx with rfl | hx2
    · norm_num
    · rcases List.mem_singleton.mp hx2 with rfl
      norm_num
  have hmain := cart_aggregation_and_line_items [(toothbrush, 2), (toothbrush, 3)]
    ⟨⟨[(toothbrush, 1)]⟩, []⟩
    ⟨[⟨toothbrush, 2, 1, 2 * 1⟩, ⟨toothbrush, 3, 1, 3 * 1⟩], []⟩ hvalid
  refine ⟨hvalid, hmain.1, hmain.2 ?_⟩
  norm_num [buildCart, ShoppingCart.empty, ShoppingCart.add_item_quantity, dictGet, dictSet,
    Teller.checks_out_articles_from, addLineItems, Catalog.unit_price, Receipt.add_product,
    ShoppingCart.handle_offers, handleOffersLoop]
